import Mathlib

/-!
Verification of the `uname26` launcher (src/uname26-1.0/uname26.c).

The program is a single `main` function: it checks `av[1]`, prints a usage
message and exits with status 1 when it is NULL; otherwise it calls
`personality(PER_LINUX | UNAME26)`, reporting the error via
`perror("personality")` and exiting with status 1 on failure; then it calls
`execvp(av[1], av + 1)` and, should that return, prints
`Cannot execute <target>: <strerror(errno)>` and exits with status 1.

We embed `main` as a function from the outcomes of the two OS calls and the
argument vector to the kernel personality state left behind and the trace of
observable events (OS calls, standard-error output, exit / image replacement).
-/

namespace Uname26

/-- Base personality value `PER_LINUX`, the numeric constant 0 taken from the
platform header `sys/personality.h`. -/
def PER_LINUX : Nat := 0

/-- The legacy-uname compatibility bit, `#define UNAME26 0x0020000` in
uname26.c line 27. -/
def UNAME26 : Nat := 0x0020000

/-- The bitmask the program passes to `personality` at line 36:
`PER_LINUX | UNAME26`. -/
def requestedPersonality : Nat := PER_LINUX ||| UNAME26

/-- The usage message printed at lines 32-33; the two adjacent C string
literals concatenate into this single string. -/
def usageMessage : String :=
  "Usage: uname26 program ...\nRun program with the uname 2.6 personality\n"

/-- The text `perror("personality")` writes to standard error when the
personality call fails with error description `e`: the given prefix string,
a colon and blank, the OS error description, and a newline. -/
def personalityErrorMessage (e : String) : String :=
  "personality: " ++ e ++ "\n"

/-- The text printed at line 40 when `execvp` returns, for target `t` and OS
error description `e`. -/
def execErrorMessage (t e : String) : String :=
  "Cannot execute " ++ t ++ ": " ++ e ++ "\n"

/-- Observable events of one run of the launcher.  `execCall f a` records the
call `execvp(f, a)`: the OS resolves `f` through the standard executable
search path and, on success, replaces the process image (event
`imageReplaced`), with `a` as the new program's argument vector. -/
inductive Event where
  | personalityCall (mask : Nat)
  | execCall (file : String) (argv : List String)
  | stderrOut (s : String)
  | exited (code : Nat)
  | imageReplaced (file : String) (argv : List String)
  deriving DecidableEq

/-- Whether an event is the personality-setting OS call. -/
def Event.isPersonalityCall : Event → Bool
  | .personalityCall _ => true
  | _ => false

/-- Whether an event is the image-replacement OS call. -/
def Event.isExecCall : Event → Bool
  | .execCall _ _ => true
  | _ => false

/-- The kernel-managed per-process state the program touches: the personality
attribute.  Per the spec it is inherited across process-image replacement. -/
structure Kernel where
  personality : Nat
  deriving DecidableEq

/-- Outcomes the operating system chooses for the two OS calls of one run:
`personalityErr = some e` means the kernel rejects the personality request
with error description `e`; `execErr = some e` means `execvp` fails and
returns with error description `e`.  `none` means the call succeeds. -/
structure OSBehavior where
  personalityErr : Option String
  execErr : Option String
  deriving DecidableEq

/-- Modelled from the spec: the OS "set process personality flags" capability
(spec section 6, capability (a)) when the kernel accepts the request.  It
records the requested bitmask as the process's personality attribute and
reports success; per the spec it is deterministic, and a repeated request
with an already-set value is likewise accepted (property P5). -/
def specSetPersonality (k : Kernel) (mask : Nat) : Kernel × Bool :=
  ({ personality := mask }, true)

/-- Shallow embedding of `main` (uname26.c lines 29-42).  `av` is the argument
vector `av[0], av[1], ...`; `av[1]?` is the `av[1]` read by the guard,
`none` playing the role of the terminating NULL pointer.  Returns the kernel
personality state after the run together with the event trace.  When the
kernel accepts the personality request its state change follows
`specSetPersonality`. -/
def runK (os : OSBehavior) (k : Kernel) (av : List String) : Kernel × List Event :=
  match av[1]? with
  | none =>
      (k, [.stderrOut usageMessage, .exited 1])
  | some target =>
      match os.personalityErr with
      | some e =>
          (k, [.personalityCall requestedPersonality,
               .stderrOut (personalityErrorMessage e),
               .exited 1])
      | none =>
          let k' := (specSetPersonality k requestedPersonality).1
          match os.execErr with
          | none =>
              (k', [.personalityCall requestedPersonality,
                    .execCall target (av.drop 1),
                    .imageReplaced target (av.drop 1)])
          | some e =>
              (k', [.personalityCall requestedPersonality,
                    .execCall target (av.drop 1),
                    .stderrOut (execErrorMessage target e),
                    .exited 1])

/-- Number of cells of the C argument vector array: by the C calling
convention `av` has `ac + 1` cells, indices `0 .. ac`, with `av[ac] = NULL`. -/
def argvCells (ac : Nat) : Nat := ac + 1

/-- The index the missing-argument guard `if (!av[1])` reads, unconditionally
and without consulting `ac`. -/
def guardReadIndex : Nat := 1

/-- The guard's read of `av[1]` is within the argument vector array. -/
def guardReadInBounds (ac : Nat) : Prop := guardReadIndex < argvCells ac

/-- A vector whose second entry is `target` splits as head, `target`, rest. -/
theorem drop_one_eq_cons (av : List String) (t : String) (h : av[1]? = some t) :
    av.drop 1 = t :: av.drop 2 := by
  match av with
  | [] => simp at h
  | [a] => simp at h
  | a :: b :: r =>
      simp at h
      subst h
      rfl

end Uname26

namespace Uname26

/-- C1: with a target argument present and the personality call accepted, the
launcher calls `execvp` on the target name as given, with argument-zero equal
to that name and every following original argument passed unmodified in
order, and on success the process image is replaced with exactly that
argument vector. -/
theorem c1_argument_passthrough (os : OSBehavior) (k : Kernel) (av : List String)
    (t : String) (ht : av[1]? = some t) (hp : os.personalityErr = none)
    (hx : os.execErr = none) :
    (runK os k av).2 =
      [.personalityCall requestedPersonality,
       .execCall t (t :: av.drop 2),
       .imageReplaced t (t :: av.drop 2)] ∧
    av.drop 1 = t :: av.drop 2 := by
  have hd := drop_one_eq_cons av t ht
  refine ⟨?_, hd⟩
  simp [runK, ht, hp, hx, hd]

/-- C1 witness: a concrete invocation `uname26 prog x y` passes
`["prog", "x", "y"]` through to the exec call. -/
theorem c1_argument_passthrough_witness :
    (runK ⟨none, none⟩ ⟨0⟩ ["uname26", "prog", "x", "y"]).2 =
      [.personalityCall requestedPersonality,
       .execCall "prog" ("prog" :: ["x", "y"]),
       .imageReplaced "prog" ("prog" :: ["x", "y"])] :=
  (c1_argument_passthrough ⟨none, none⟩ ⟨0⟩ ["uname26", "prog", "x", "y"]
    "prog" rfl rfl rfl).1

/-- C2: with a target present, exactly when the OS rejects the personality
request the launcher writes the `perror`-style report prefixed with the token
`personality` to standard error and exits with status 1; when the request is
accepted it proceeds to the exec call. -/
theorem c2_personality_error (os : OSBehavior) (k : Kernel) (av : List String)
    (t : String) (ht : av[1]? = some t) :
    (∀ e, os.personalityErr = some e →
      (runK os k av).2 =
        [.personalityCall requestedPersonality,
         .stderrOut (personalityErrorMessage e),
         .exited 1]) ∧
    (os.personalityErr = none →
      ∃ rest, (runK os k av).2 =
        .personalityCall requestedPersonality ::
        .execCall t (av.drop 1) :: rest) := by
  constructor
  · intro e he
    simp [runK, ht, he]
  · intro hp
    rcases hx : os.execErr with _ | e
    · exact ⟨[.imageReplaced t (av.drop 1)], by simp [runK, ht, hp, hx]⟩
    · exact ⟨[.stderrOut (execErrorMessage t e), .exited 1],
        by simp [runK, ht, hp, hx]⟩

/-- C2 witness: concrete rejected run reports the error, concrete accepted
run proceeds to the exec call. -/
theorem c2_personality_error_witness :
    (runK ⟨some "Operation not permitted", none⟩ ⟨0⟩ ["uname26", "prog"]).2 =
      [.personalityCall requestedPersonality,
       .stderrOut (personalityErrorMessage "Operation not permitted"),
       .exited 1] ∧
    ∃ rest, (runK ⟨none, none⟩ ⟨0⟩ ["uname26", "prog"]).2 =
      .personalityCall requestedPersonality ::
      .execCall "prog" (["uname26", "prog"].drop 1) :: rest :=
  ⟨(c2_personality_error ⟨some "Operation not permitted", none⟩ ⟨0⟩
      ["uname26", "prog"] "prog" rfl).1 "Operation not permitted" rfl,
   (c2_personality_error ⟨none, none⟩ ⟨0⟩
      ["uname26", "prog"] "prog" rfl).2 rfl⟩

/-- C3: with no argument after the program name (`av[1]` is the NULL
sentinel), the launcher writes exactly the two-line usage message to standard
error and exits with status 1, making neither OS call. -/
theorem c3_usage_message (os : OSBehavior) (k : Kernel) (av : List String)
    (h : av[1]? = none) :
    (runK os k av).2 = [.stderrOut usageMessage, .exited 1] ∧
    (∀ m, Event.personalityCall m ∉ (runK os k av).2) ∧
    (∀ f a, Event.execCall f a ∉ (runK os k av).2) := by
  refine ⟨by simp [runK, h], ?_, ?_⟩
  · intro m
    simp [runK, h]
  · intro f a
    simp [runK, h]

/-- C3 witness: invoking with the bare program name prints the usage message
and exits with status 1. -/
theorem c3_usage_message_witness :
    (runK ⟨none, none⟩ ⟨0⟩ ["uname26"]).2 = [.stderrOut usageMessage, .exited 1] :=
  (c3_usage_message ⟨none, none⟩ ⟨0⟩ ["uname26"] rfl).1

/-- C4: when the exec call fails after the personality call was accepted, the
launcher writes `Cannot execute <target>: <OS error description>` with a
newline to standard error, with the target name as given, and exits with
status 1. -/
theorem c4_exec_failure (os : OSBehavior) (k : Kernel) (av : List String)
    (t e : String) (ht : av[1]? = some t) (hp : os.personalityErr = none)
    (hx : os.execErr = some e) :
    (runK os k av).2 =
      [.personalityCall requestedPersonality,
       .execCall t (av.drop 1),
       .stderrOut (execErrorMessage t e),
       .exited 1] := by
  simp [runK, ht, hp, hx]

/-- C4 witness: a concrete failing exec of target `prog` with error
`No such file or directory`. -/
theorem c4_exec_failure_witness :
    (runK ⟨none, some "No such file or directory"⟩ ⟨0⟩ ["uname26", "prog"]).2 =
      [.personalityCall requestedPersonality,
       .execCall "prog" (["uname26", "prog"].drop 1),
       .stderrOut (execErrorMessage "prog" "No such file or directory"),
       .exited 1] :=
  c4_exec_failure ⟨none, some "No such file or directory"⟩ ⟨0⟩
    ["uname26", "prog"] "prog" "No such file or directory" rfl rfl rfl

/-- C5: every personality-setting call in any run requests exactly the fixed
mask `PER_LINUX ||| UNAME26`, which equals `0x0020000`; some run does make
such a call. -/
theorem c5_fixed_mask (os : OSBehavior) (k : Kernel) (av : List String) :
    (∀ m, Event.personalityCall m ∈ (runK os k av).2 → m = requestedPersonality) ∧
    requestedPersonality = PER_LINUX ||| UNAME26 ∧
    requestedPersonality = 0x0020000 := by
  refine ⟨?_, rfl, rfl⟩
  intro m hm
  rcases ht : av[1]? with _ | t
  · simp [runK, ht] at hm
  · rcases hp : os.personalityErr with _ | e
    · rcases hx : os.execErr with _ | e
      · simp [runK, ht, hp, hx] at hm
        exact hm
      · simp [runK, ht, hp, hx] at hm
        exact hm
    · simp [runK, ht, hp] at hm
      exact hm

/-- C5 witness: a concrete run contains a personality call, and the theorem
forces its mask to be the fixed value. -/
theorem c5_fixed_mask_witness :
    Event.personalityCall requestedPersonality ∈
      (runK ⟨none, none⟩ ⟨0⟩ ["uname26", "prog"]).2 ∧
    requestedPersonality = 0x0020000 :=
  ⟨by simp [runK, requestedPersonality],
   ((c5_fixed_mask ⟨none, none⟩ ⟨0⟩ ["uname26", "prog"]).2).2⟩

/-- C6: in every run, before the first personality call no exec call occurs
(so the exec call is never reached without the personality having been set),
and at most one personality call happens. -/
theorem c6_personality_before_exec (os : OSBehavior) (k : Kernel) (av : List String) :
    ((runK os k av).2.takeWhile (fun ev => !ev.isPersonalityCall)).all
        (fun ev => !ev.isExecCall) = true ∧
    (runK os k av).2.countP (fun ev => ev.isPersonalityCall) ≤ 1 := by
  rcases ht : av[1]? with _ | t
  · simp [runK, ht, Event.isPersonalityCall, Event.isExecCall]
  · rcases hp : os.personalityErr with _ | e
    · rcases hx : os.execErr with _ | e
      · simp [runK, ht, hp, hx, Event.isPersonalityCall, Event.isExecCall]
      · simp [runK, ht, hp, hx, Event.isPersonalityCall, Event.isExecCall]
    · simp [runK, ht, hp, Event.isPersonalityCall, Event.isExecCall]

/-- C7: every run either ends with successful image replacement (the launcher
never returns) or ends with exit status 1, and no other exit status ever
occurs in any run. -/
theorem c7_exit_status_one (os : OSBehavior) (k : Kernel) (av : List String) :
    ((∃ f a, (runK os k av).2.getLast? = some (.imageReplaced f a)) ∨
      (runK os k av).2.getLast? = some (.exited 1)) ∧
    ∀ n, Event.exited n ∈ (runK os k av).2 → n = 1 := by
  rcases ht : av[1]? with _ | t
  · refine ⟨Or.inr (by simp [runK, ht]), ?_⟩
    intro n hn
    simp [runK, ht] at hn
    exact hn
  · rcases hp : os.personalityErr with _ | e
    · rcases hx : os.execErr with _ | e
      · refine ⟨Or.inl ⟨t, av.drop 1, by simp [runK, ht, hp, hx]⟩, ?_⟩
        intro n hn
        simp [runK, ht, hp, hx] at hn
      · refine ⟨Or.inr (by simp [runK, ht, hp, hx]), ?_⟩
        intro n hn
        simp [runK, ht, hp, hx] at hn
        exact hn
    · refine ⟨Or.inr (by simp [runK, ht, hp]), ?_⟩
      intro n hn
      simp [runK, ht, hp] at hn
      exact hn

/-- C7 witness: the universally quantified statement at a concrete run with
a failing exec, extracting that the run ends with exit status 1. -/
theorem c7_exit_status_one_witness :
    (runK ⟨none, some "err"⟩ ⟨0⟩ ["uname26", "prog"]).2.getLast? =
      some (.exited 1) := by
  rcases (c7_exit_status_one ⟨none, some "err"⟩ ⟨0⟩ ["uname26", "prog"]).1 with h | h
  · rcases h with ⟨f, a, h⟩
    simp [runK] at h
  · exact h

/-- C8: nested invocations.  A first accepted run leaves the personality set
to the fixed mask; the image replacement preserves it; the second run's
personality request, made on a kernel whose personality already equals the
requested mask, is again accepted (spec-modelled capability), takes no error
path, proceeds to the exec call, and the flag remains set afterwards. -/
theorem c8_idempotent_flag (k0 : Kernel) (av av2 : List String) (t t2 : String)
    (e2 : Option String) (h : av[1]? = some t) (h2 : av2[1]? = some t2) :
    (runK ⟨none, none⟩ k0 av).1.personality = requestedPersonality ∧
    (specSetPersonality (runK ⟨none, none⟩ k0 av).1 requestedPersonality).2 = true ∧
    (runK ⟨none, e2⟩ (runK ⟨none, none⟩ k0 av).1 av2).1.personality =
      requestedPersonality ∧
    ∃ rest, (runK ⟨none, e2⟩ (runK ⟨none, none⟩ k0 av).1 av2).2 =
      .personalityCall requestedPersonality ::
      .execCall t2 (av2.drop 1) :: rest := by
  refine ⟨by simp [runK, h, specSetPersonality], rfl, ?_, ?_⟩
  · rcases hx : e2 with _ | e
    · simp [runK, h, h2, hx, specSetPersonality]
    · simp [runK, h, h2, hx, specSetPersonality]
  · rcases hx : e2 with _ | e
    · exact ⟨[.imageReplaced t2 (av2.drop 1)], by simp [runK, h, h2, hx]⟩
    · exact ⟨[.stderrOut (execErrorMessage t2 e), .exited 1],
        by simp [runK, h, h2, hx]⟩

/-- C8 witness: the launcher re-invoking itself on a fresh kernel: both
personality requests are accepted and the flag is the fixed mask afterwards. -/
theorem c8_idempotent_flag_witness :
    (runK ⟨none, none⟩
        (runK ⟨none, none⟩ ⟨0⟩ ["uname26", "uname26", "prog"]).1
        ["uname26", "prog"]).1.personality = requestedPersonality :=
  ((c8_idempotent_flag ⟨0⟩ ["uname26", "uname26", "prog"] ["uname26", "prog"]
      "uname26" "prog" none rfl rfl).2).2.1

/-- C9: the missing-argument guard reads index 1 of the argument vector
array, which by the C convention has `ac + 1` cells; the read is in bounds
exactly when `ac ≥ 1` (the `av[ac] = NULL` sentinel then detecting a missing
target), and for an empty argument vector (`ac = 0`) it is out of bounds. -/
theorem c9_guard_read_bounds :
    (∀ ac : Nat, guardReadInBounds ac ↔ 1 ≤ ac) ∧ ¬ guardReadInBounds 0 := by
  constructor
  · intro ac
    simp only [guardReadInBounds, guardReadIndex, argvCells]
    omega
  · simp [guardReadInBounds, guardReadIndex, argvCells]

/-- C9 witness: in bounds at `ac = 1`, out of bounds at `ac = 0`. -/
theorem c9_guard_read_bounds_witness :
    guardReadInBounds 1 ∧ ¬ guardReadInBounds 0 :=
  ⟨(c9_guard_read_bounds.1 1).mpr (by decide), c9_guard_read_bounds.2⟩

/-- C10: when the exec call fails after the personality request was accepted,
the launcher exits with status 1 while the kernel personality remains the
requested mask — no restoring call is made (the run contains exactly one
personality call). -/
theorem c10_no_restore (os : OSBehavior) (k : Kernel) (av : List String)
    (t e : String) (ht : av[1]? = some t) (hp : os.personalityErr = none)
    (hx : os.execErr = some e) :
    (runK os k av).1 = { personality := requestedPersonality } ∧
    (runK os k av).2.getLast? = some (.exited 1) ∧
    (runK os k av).2.countP (fun ev => ev.isPersonalityCall) = 1 := by
  refine ⟨?_, ?_, ?_⟩
  · simp [runK, ht, hp, hx, specSetPersonality]
  · simp [runK, ht, hp, hx]
  · simp [runK, ht, hp, hx, Event.isPersonalityCall]

/-- C10 witness: a concrete failing exec, starting from a kernel whose
personality was 7: afterwards it is the requested mask, not 7. -/
theorem c10_no_restore_witness :
    (runK ⟨none, some "err"⟩ ⟨7⟩ ["uname26", "prog"]).1 =
      { personality := requestedPersonality } ∧
    (runK ⟨none, some "err"⟩ ⟨7⟩ ["uname26", "prog"]).2.getLast? =
      some (.exited 1) :=
  ⟨(c10_no_restore ⟨none, some "err"⟩ ⟨7⟩ ["uname26", "prog"] "prog" "err"
      rfl rfl rfl).1,
   ((c10_no_restore ⟨none, some "err"⟩ ⟨7⟩ ["uname26", "prog"] "prog" "err"
      rfl rfl rfl).2).1⟩

end Uname26
